import Mathlib

/-!
Verification of `src/vicsetup/libvicsetup/integrity.c` (sgx-lkl): the
dm-integrity superblock reader/validator, the diagnostic dump, and the
integrity-scheme registry.  Pure C functions become Lean functions; the
out-parameter of the superblock reader becomes explicit state passing;
machine integers are `Nat` with explicit bounds/`%` where overflow matters;
C undefined behaviour (the 32-bit left shift in `_inverse_log2` for shift
counts ≥ 31) is modelled as `Option.none`.
-/

namespace Integrity

/-- The subset of `vic_result_t` values used by `integrity.c`
(`VIC_OK`, `VIC_FAILED`, `VIC_BAD_BLOCK_SIZE`, `VIC_NOT_FOUND`,
`VIC_BAD_PARAMETER`, `VIC_UNEXPECTED`). -/
inductive vic_result_t where
  | VIC_OK
  | VIC_FAILED
  | VIC_BAD_BLOCK_SIZE
  | VIC_NOT_FOUND
  | VIC_BAD_PARAMETER
  | VIC_UNEXPECTED
  deriving DecidableEq, Repr

export vic_result_t (VIC_OK VIC_FAILED VIC_BAD_BLOCK_SIZE VIC_NOT_FOUND
  VIC_BAD_PARAMETER VIC_UNEXPECTED)

/-- The `vic_integrity_t` enumeration: the six declared integrity schemes. -/
inductive vic_integrity_t where
  | VIC_INTEGRITY_NONE
  | VIC_INTEGRITY_HMAC_AEAD
  | VIC_INTEGRITY_HMAC_SHA256
  | VIC_INTEGRITY_HMAC_SHA512
  | VIC_INTEGRITY_CMAC_AES
  | VIC_INTEGRITY_POLY1305
  deriving DecidableEq, Repr

export vic_integrity_t (VIC_INTEGRITY_NONE VIC_INTEGRITY_HMAC_AEAD
  VIC_INTEGRITY_HMAC_SHA256 VIC_INTEGRITY_HMAC_SHA512 VIC_INTEGRITY_CMAC_AES
  VIC_INTEGRITY_POLY1305)

/-- The value `(size_t)-1` on the 64-bit target: the sentinel returned by
`vic_integrity_tag_size_from_str`. -/
def SIZE_MAX : Nat := 2 ^ 64 - 1

/-- C: `vic_integrity_name` — `switch` over the six enumerators returning the
canonical display name.  The trailing `return NULL` is unreachable here because
the Lean enumeration contains exactly the six declared values, over which the
`switch` is exhaustive. -/
def vic_integrity_name (integrity : vic_integrity_t) : String :=
  match integrity with
  | VIC_INTEGRITY_NONE => "none"
  | VIC_INTEGRITY_HMAC_AEAD => "aead"
  | VIC_INTEGRITY_HMAC_SHA256 => "hmac(sha256)"
  | VIC_INTEGRITY_HMAC_SHA512 => "hmac(sha512)"
  | VIC_INTEGRITY_CMAC_AES => "cmac(aes)"
  | VIC_INTEGRITY_POLY1305 => "poly1305"

/-- C: `vic_integrity_tag_size` — `switch` returning the per-sector
authentication-tag byte size; the trailing `return 0` is unreachable for the
six declared values. -/
def vic_integrity_tag_size (integrity : vic_integrity_t) : Nat :=
  match integrity with
  | VIC_INTEGRITY_NONE => 0
  | VIC_INTEGRITY_HMAC_AEAD => 16
  | VIC_INTEGRITY_HMAC_SHA256 => 32
  | VIC_INTEGRITY_HMAC_SHA512 => 64
  | VIC_INTEGRITY_CMAC_AES => 16
  | VIC_INTEGRITY_POLY1305 => 16

/-- C: `vic_integrity_enum` — chain of `strcmp` tests falling through to
`VIC_INTEGRITY_NONE` for any unrecognized string.  (The C function
dereferences `str` unconditionally, so the argument is a non-null string.) -/
def vic_integrity_enum (str : String) : vic_integrity_t :=
  if str = "aead" then VIC_INTEGRITY_HMAC_AEAD
  else if str = "hmac(sha256)" then VIC_INTEGRITY_HMAC_SHA256
  else if str = "hmac(sha512)" then VIC_INTEGRITY_HMAC_SHA512
  else if str = "cmac(aes)" then VIC_INTEGRITY_CMAC_AES
  else if str = "poly1305" then VIC_INTEGRITY_POLY1305
  else VIC_INTEGRITY_NONE

/-- C: `vic_integrity_tag_size_from_str` — `none` models a NULL pointer, for
which the function returns `(size_t)-1`; unmatched names also fall through to
`(size_t)-1`. -/
def vic_integrity_tag_size_from_str (integrity : Option String) : Nat :=
  match integrity with
  | none => SIZE_MAX
  | some s =>
    if s = "aead" then 16
    else if s = "hmac(sha256)" then 32
    else if s = "hmac(sha512)" then 64
    else if s = "cmac(aes)" then 16
    else if s = "poly1305" then 16
    else SIZE_MAX

/-- C: `vic_integrity_key_size` — `switch` returning the separate MAC-key byte
size; the trailing `return 0` is unreachable for the six declared values. -/
def vic_integrity_key_size (integrity : vic_integrity_t) : Nat :=
  match integrity with
  | VIC_INTEGRITY_NONE => 0
  | VIC_INTEGRITY_HMAC_AEAD => 0
  | VIC_INTEGRITY_HMAC_SHA256 => 32
  | VIC_INTEGRITY_HMAC_SHA512 => 64
  | VIC_INTEGRITY_CMAC_AES => 0
  | VIC_INTEGRITY_POLY1305 => 0

/-- C: `vic_integrity_key_size_from_str` — `none` models a NULL pointer, for
which the function returns `0` (not the `(size_t)-1` sentinel); unmatched
names also fall through to `0`. -/
def vic_integrity_key_size_from_str (integrity : Option String) : Nat :=
  match integrity with
  | none => 0
  | some s =>
    if s = "aead" then 0
    else if s = "hmac(sha256)" then 32
    else if s = "hmac(sha512)" then 64
    else if s = "cmac(aes)" then 0
    else if s = "poly1305" then 0
    else 0

/-- C: `static uint8_t _magic[8] = { 'i','n','t','e','g','r','t','\0' };`
(bytes `69 6E 74 65 67 72 74 00`). -/
def _magic : List Nat := [105, 110, 116, 101, 103, 114, 116, 0]

/-- `VIC_SECTOR_SIZE`: the fixed sector size, 512 bytes (spec §4.1/§6; the
constant lives in a header that is not part of the provided source). -/
def VIC_SECTOR_SIZE : Nat := 512

/-- Modelled from the spec: `vic_integrity_sb_t` is declared in `integrity.h`,
which is not part of the provided source; fields, widths and order follow
spec §3 (magic 8 bytes, version u8, log2_interleave_sectors u8,
integrity_tag_size u16, journal_sections u32, provided_data_sectors u64,
flags u32, log2_sectors_per_block u8, log2_blocks_per_bitmap_bit u8,
recalc_sector u64).  Each field is a `Nat`; the width bounds are the
`sb_wf` predicate below. -/
structure vic_integrity_sb_t where
  magic : List Nat
  version : Nat
  log2_interleave_sectors : Nat
  integrity_tag_size : Nat
  journal_sections : Nat
  provided_data_sectors : Nat
  flags : Nat
  log2_sectors_per_block : Nat
  log2_blocks_per_bitmap_bit : Nat
  recalc_sector : Nat
  deriving DecidableEq, Repr

/-- Field-width well-formedness for `vic_integrity_sb_t`: each field fits the
C integer type spec §3 assigns it. -/
def sb_wf (sb : vic_integrity_sb_t) : Prop :=
  sb.magic.length = 8 ∧
  sb.version < 2 ^ 8 ∧
  sb.log2_interleave_sectors < 2 ^ 8 ∧
  sb.integrity_tag_size < 2 ^ 16 ∧
  sb.journal_sections < 2 ^ 32 ∧
  sb.provided_data_sectors < 2 ^ 64 ∧
  sb.flags < 2 ^ 32 ∧
  sb.log2_sectors_per_block < 2 ^ 8 ∧
  sb.log2_blocks_per_bitmap_bit < 2 ^ 8 ∧
  sb.recalc_sector < 2 ^ 64

instance (sb : vic_integrity_sb_t) : Decidable (sb_wf sb) := by
  unfold sb_wf; infer_instance

/-- Byte `i` of a sector buffer (out-of-range reads yield 0; the reader only
ever applies this to a full 512-byte sector). -/
def byteAt (blk : List Nat) (i : Nat) : Nat := blk.getD i 0

/-- The effect of `memcpy(sb, &blk, sizeof(vic_integrity_sb_t))` in
`vic_read_integrity_sb`: reinterpret the leading bytes of the sector as the
structure.  Offsets are the natural (C alignment) offsets of the §3
field order — magic at 0, version 8, log2_interleave_sectors 9,
integrity_tag_size 10, journal_sections 12, provided_data_sectors 16,
flags 24, log2_sectors_per_block 28, log2_blocks_per_bitmap_bit 29,
(2 bytes padding), recalc_sector 32 — with multi-byte fields little-endian
(spec §3/§9 pin the byte order; the target is little-endian x86-64). -/
def decode_sb (blk : List Nat) : vic_integrity_sb_t :=
  { magic := [byteAt blk 0, byteAt blk 1, byteAt blk 2, byteAt blk 3,
              byteAt blk 4, byteAt blk 5, byteAt blk 6, byteAt blk 7]
    version := byteAt blk 8
    log2_interleave_sectors := byteAt blk 9
    integrity_tag_size := byteAt blk 10 + 2 ^ 8 * byteAt blk 11
    journal_sections :=
      byteAt blk 12 + 2 ^ 8 * byteAt blk 13 + 2 ^ 16 * byteAt blk 14 +
        2 ^ 24 * byteAt blk 15
    provided_data_sectors :=
      byteAt blk 16 + 2 ^ 8 * byteAt blk 17 + 2 ^ 16 * byteAt blk 18 +
        2 ^ 24 * byteAt blk 19 + 2 ^ 32 * byteAt blk 20 +
        2 ^ 40 * byteAt blk 21 + 2 ^ 48 * byteAt blk 22 +
        2 ^ 56 * byteAt blk 23
    flags :=
      byteAt blk 24 + 2 ^ 8 * byteAt blk 25 + 2 ^ 16 * byteAt blk 26 +
        2 ^ 24 * byteAt blk 27
    log2_sectors_per_block := byteAt blk 28
    log2_blocks_per_bitmap_bit := byteAt blk 29
    recalc_sector :=
      byteAt blk 32 + 2 ^ 8 * byteAt blk 33 + 2 ^ 16 * byteAt blk 34 +
        2 ^ 24 * byteAt blk 35 + 2 ^ 32 * byteAt blk 36 +
        2 ^ 40 * byteAt blk 37 + 2 ^ 48 * byteAt blk 38 +
        2 ^ 56 * byteAt blk 39 }

/-- Modelled from the spec: the §8 round-trip property writes known field
values into a buffer at the §3 offsets and widths (little-endian) and reads
them back.  This encoder is the spec side of that round trip; it is compared
against `decode_sb`, which embeds the code's `memcpy` reinterpretation. -/
def encode_sb (sb : vic_integrity_sb_t) : List Nat :=
  sb.magic ++
  [sb.version % 2 ^ 8,
   sb.log2_interleave_sectors % 2 ^ 8,
   sb.integrity_tag_size % 2 ^ 8, sb.integrity_tag_size / 2 ^ 8 % 2 ^ 8,
   sb.journal_sections % 2 ^ 8, sb.journal_sections / 2 ^ 8 % 2 ^ 8,
   sb.journal_sections / 2 ^ 16 % 2 ^ 8, sb.journal_sections / 2 ^ 24 % 2 ^ 8,
   sb.provided_data_sectors % 2 ^ 8, sb.provided_data_sectors / 2 ^ 8 % 2 ^ 8,
   sb.provided_data_sectors / 2 ^ 16 % 2 ^ 8,
   sb.provided_data_sectors / 2 ^ 24 % 2 ^ 8,
   sb.provided_data_sectors / 2 ^ 32 % 2 ^ 8,
   sb.provided_data_sectors / 2 ^ 40 % 2 ^ 8,
   sb.provided_data_sectors / 2 ^ 48 % 2 ^ 8,
   sb.provided_data_sectors / 2 ^ 56 % 2 ^ 8,
   sb.flags % 2 ^ 8, sb.flags / 2 ^ 8 % 2 ^ 8,
   sb.flags / 2 ^ 16 % 2 ^ 8, sb.flags / 2 ^ 24 % 2 ^ 8,
   sb.log2_sectors_per_block % 2 ^ 8,
   sb.log2_blocks_per_bitmap_bit % 2 ^ 8,
   0, 0,
   sb.recalc_sector % 2 ^ 8, sb.recalc_sector / 2 ^ 8 % 2 ^ 8,
   sb.recalc_sector / 2 ^ 16 % 2 ^ 8, sb.recalc_sector / 2 ^ 24 % 2 ^ 8,
   sb.recalc_sector / 2 ^ 32 % 2 ^ 8, sb.recalc_sector / 2 ^ 40 % 2 ^ 8,
   sb.recalc_sector / 2 ^ 48 % 2 ^ 8, sb.recalc_sector / 2 ^ 56 % 2 ^ 8] ++
  List.replicate (VIC_SECTOR_SIZE - 40) 0

/-- The external block-device collaborator (`vic_blockdev_t`), at its
boundary (spec §6): `get_block_size` either fills in the size or fails with a
`vic_result_t` (propagated by the `CHECK` macro), and `get blkno` either
yields the bytes of one sector or fails (a nonzero return from
`vic_blockdev_get`, covering short reads and device errors). -/
structure vic_blockdev_t where
  get_block_size : Except vic_result_t Nat
  get : Nat → Option (List Nat)

/-- Outcome of `vic_read_integrity_sb`: the returned `vic_result_t`, the final
contents of the caller's out-structure `*sb` (explicit state passing for the
C out-pointer), and the number of `vic_blockdev_get` invocations performed
(instrumentation for the "no device read is attempted" property). -/
structure ReadOutcome where
  result : vic_result_t
  sb : vic_integrity_sb_t
  get_calls : Nat
  deriving DecidableEq, Repr

/-- C: `vic_read_integrity_sb(device, offset, sb)`.  Control flow of the
source: compute `blkno = offset / VIC_SECTOR_SIZE`; `CHECK` the block-size
query (failure propagates its result); raise `VIC_BAD_BLOCK_SIZE` if the size
differs from `VIC_SECTOR_SIZE`; raise `VIC_FAILED` if `vic_blockdev_get`
fails; then `memcpy` the sector into `*sb` (this happens BEFORE the magic
check) and raise `VIC_NOT_FOUND` if the copied magic differs from `_magic`,
else return `VIC_OK`.  `sb0` is the contents of the caller's structure on
entry. -/
def vic_read_integrity_sb (device : vic_blockdev_t) (offset : Nat)
    (sb0 : vic_integrity_sb_t) : ReadOutcome :=
  let blkno := offset / VIC_SECTOR_SIZE
  match device.get_block_size with
  | Except.error r => ⟨r, sb0, 0⟩
  | Except.ok block_size =>
    if block_size ≠ VIC_SECTOR_SIZE then ⟨VIC_BAD_BLOCK_SIZE, sb0, 0⟩
    else
      match device.get blkno with
      | none => ⟨VIC_FAILED, sb0, 1⟩
      | some blk =>
        let sb := decode_sb blk
        if sb.magic ≠ _magic then ⟨VIC_NOT_FOUND, sb, 1⟩
        else ⟨VIC_OK, sb, 1⟩

/-- C: `static uint64_t _inverse_log2(uint8_t log) { return 1 << (uint64_t)log; }`.
The literal `1` has type `int` (32 bits); in C the result type of `<<` is the
promoted LEFT operand's type, so despite the cast on the shift count this is a
32-bit signed shift.  It is well defined only for `log ≤ 30` (at 31 the result
2^31 overflows `int`; at ≥ 32 the shift count reaches the operand width);
undefined behaviour is modelled as `none`. -/
def _inverse_log2 (log : Nat) : Option Nat :=
  if log ≤ 30 then some (1 <<< log) else none

/-- Lowercase hexadecimal digit, for the `%02x` conversions in the dump. -/
def hexDigit (n : Nat) : Char :=
  if n < 10 then Char.ofNat (48 + n) else Char.ofNat (87 + n)

/-- `printf("%02x", b)` for a byte value. -/
def hex2 (b : Nat) : String :=
  String.mk [hexDigit (b / 16 % 16), hexDigit (b % 16)]

/-- `printf("%s", sb->magic)`: the bytes up to the first NUL, as characters. -/
def cStr (bytes : List Nat) : String :=
  String.mk ((bytes.takeWhile (fun b => b ≠ 0)).map Char.ofNat)

/-- C: `vic_dump_integrity_sb(sb)`.  `none` input models a NULL pointer.  The
function first checks `!sb || memcmp(sb->magic, _magic, 8) != 0` and raises
`VIC_BAD_PARAMETER` with no output; otherwise it prints one line per `printf`
of the source (each `log2_*` field together with its `_inverse_log2`
expansion) and returns `VIC_OK`.  The expansion is undefined behaviour for
exponents ≥ 31 (see `_inverse_log2`), in which case the whole call is
modelled as `none`.  The input structure is taken by value and only read:
the embedding has no mutation. -/
def vic_dump_integrity_sb (sb? : Option vic_integrity_sb_t) :
    Option (vic_result_t × List String) :=
  match sb? with
  | none => some (VIC_BAD_PARAMETER, [])
  | some sb =>
    if sb.magic ≠ _magic then some (VIC_BAD_PARAMETER, [])
    else
      match _inverse_log2 sb.log2_interleave_sectors,
            _inverse_log2 sb.log2_sectors_per_block,
            _inverse_log2 sb.log2_blocks_per_bitmap_bit with
      | some v1, some v2, some v3 =>
        some (VIC_OK,
          ["vic_luks_integrity_sb",
           "\x7b",
           "  magic=" ++ cStr sb.magic ++ " (" ++
             hex2 (sb.magic.getD 0 0) ++ " " ++ hex2 (sb.magic.getD 1 0) ++
             " " ++ hex2 (sb.magic.getD 2 0) ++ " " ++
             hex2 (sb.magic.getD 3 0) ++ " " ++ hex2 (sb.magic.getD 4 0) ++
             " " ++ hex2 (sb.magic.getD 5 0) ++ " " ++
             hex2 (sb.magic.getD 6 0) ++ " " ++ hex2 (sb.magic.getD 7 0) ++
             ")",
           "  version=" ++ toString sb.version,
           "  log2_interleave_sectors=" ++
             toString sb.log2_interleave_sectors ++ " (" ++ toString v1 ++
             ")",
           "  integrity_tag_size=" ++ toString sb.integrity_tag_size,
           "  journal_sections=" ++ toString sb.journal_sections,
           "  provided_data_sectors=" ++ toString sb.provided_data_sectors,
           "  flags=" ++ toString sb.flags,
           "  log2_sectors_per_block=" ++
             toString sb.log2_sectors_per_block ++ " (" ++ toString v2 ++
             ")",
           "  log2_blocks_per_bitmap_bit=" ++
             toString sb.log2_blocks_per_bitmap_bit ++ " (" ++ toString v3 ++
             ")",
           "  recalc_sector=" ++ toString sb.recalc_sector,
           "\x7d"])
      | _, _, _ => none

/-! ## Helper lemmas and concrete fixtures -/

/-- A list of length 8 is an explicit 8-element list. -/
theorem list_eight {l : List Nat} (h : l.length = 8) :
    ∃ a b c d e f g i, l = [a, b, c, d, e, f, g, i] := by
  rcases l with _ | ⟨a, _ | ⟨b, _ | ⟨c, _ | ⟨d, _ | ⟨e, _ | ⟨f, _ |
    ⟨g, _ | ⟨i, _ | ⟨j, t⟩⟩⟩⟩⟩⟩⟩⟩⟩ <;> simp_all

/-- Structure extensionality for `vic_integrity_sb_t`. -/
theorem sb_ext {x y : vic_integrity_sb_t}
    (h0 : x.magic = y.magic) (h1 : x.version = y.version)
    (h2 : x.log2_interleave_sectors = y.log2_interleave_sectors)
    (h3 : x.integrity_tag_size = y.integrity_tag_size)
    (h4 : x.journal_sections = y.journal_sections)
    (h5 : x.provided_data_sectors = y.provided_data_sectors)
    (h6 : x.flags = y.flags)
    (h7 : x.log2_sectors_per_block = y.log2_sectors_per_block)
    (h8 : x.log2_blocks_per_bitmap_bit = y.log2_blocks_per_bitmap_bit)
    (h9 : x.recalc_sector = y.recalc_sector) : x = y := by
  cases x; cases y; simp_all

/-- Decoding the spec-layout encoding of a well-formed superblock recovers
every field: the §8 round-trip. -/
theorem decode_encode_sb {sb : vic_integrity_sb_t} (h : sb_wf sb) :
    decode_sb (encode_sb sb) = sb := by
  obtain ⟨magic, v, l1, t, j, p, fl, l2, l3, r⟩ := sb
  obtain ⟨hm, h1, h2, h3, h4, h5, h6, h7, h8, h9⟩ := h
  simp only at hm h1 h2 h3 h4 h5 h6 h7 h8 h9
  obtain ⟨a, b, c, d, e, f, g, i, hl⟩ := list_eight hm
  subst hl
  apply sb_ext
  · rfl
  · show v % 2 ^ 8 = v; omega
  · show l1 % 2 ^ 8 = l1; omega
  · show t % 2 ^ 8 + 2 ^ 8 * (t / 2 ^ 8 % 2 ^ 8) = t; omega
  · show j % 2 ^ 8 + 2 ^ 8 * (j / 2 ^ 8 % 2 ^ 8) +
      2 ^ 16 * (j / 2 ^ 16 % 2 ^ 8) + 2 ^ 24 * (j / 2 ^ 24 % 2 ^ 8) = j
    omega
  · show p % 2 ^ 8 + 2 ^ 8 * (p / 2 ^ 8 % 2 ^ 8) +
      2 ^ 16 * (p / 2 ^ 16 % 2 ^ 8) + 2 ^ 24 * (p / 2 ^ 24 % 2 ^ 8) +
      2 ^ 32 * (p / 2 ^ 32 % 2 ^ 8) + 2 ^ 40 * (p / 2 ^ 40 % 2 ^ 8) +
      2 ^ 48 * (p / 2 ^ 48 % 2 ^ 8) + 2 ^ 56 * (p / 2 ^ 56 % 2 ^ 8) = p
    omega
  · show fl % 2 ^ 8 + 2 ^ 8 * (fl / 2 ^ 8 % 2 ^ 8) +
      2 ^ 16 * (fl / 2 ^ 16 % 2 ^ 8) + 2 ^ 24 * (fl / 2 ^ 24 % 2 ^ 8) = fl
    omega
  · show l2 % 2 ^ 8 = l2; omega
  · show l3 % 2 ^ 8 = l3; omega
  · show r % 2 ^ 8 + 2 ^ 8 * (r / 2 ^ 8 % 2 ^ 8) +
      2 ^ 16 * (r / 2 ^ 16 % 2 ^ 8) + 2 ^ 24 * (r / 2 ^ 24 % 2 ^ 8) +
      2 ^ 32 * (r / 2 ^ 32 % 2 ^ 8) + 2 ^ 40 * (r / 2 ^ 40 % 2 ^ 8) +
      2 ^ 48 * (r / 2 ^ 48 % 2 ^ 8) + 2 ^ 56 * (r / 2 ^ 56 % 2 ^ 8) = r
    omega

/-- A probe structure with distinct nonzero field values, used to observe
whether the reader overwrites the caller's structure. -/
def sb_probe : vic_integrity_sb_t :=
  ⟨[1, 2, 3, 4, 5, 6, 7, 8], 9, 10, 11, 12, 13, 14, 15, 16, 17⟩

/-- A device whose sector reads return all-zero bytes (no magic). -/
def dev_zeros : vic_blockdev_t :=
  ⟨Except.ok 512, fun _ => some (List.replicate 512 0)⟩

/-- A sector carrying the magic, version 1, and the out-of-range exponent 200
in the `log2_interleave_sectors` byte (offset 9). -/
def blk_big_exponent : List Nat :=
  [105, 110, 116, 101, 103, 114, 116, 0, 1, 200] ++ List.replicate 502 0

/-- A device serving `blk_big_exponent`. -/
def dev_big_exponent : vic_blockdev_t :=
  ⟨Except.ok 512, fun _ => some blk_big_exponent⟩

/-! ## Claims -/

/-- C4: for each of the six declared integrity schemes, looking up the
scheme's canonical name with `vic_integrity_name` and mapping it back through
`vic_integrity_enum` yields the original scheme. -/
theorem scheme_name_roundtrip (s : vic_integrity_t) :
    vic_integrity_enum (vic_integrity_name s) = s := by
  cases s <;> decide

/-- C2 counterexample: `vic_integrity_key_size_from_str` given a null name
returns 0, not the distinguished `(size_t)-1` sentinel the claim asserts. -/
theorem key_size_null_not_sentinel :
    vic_integrity_key_size_from_str none = 0 ∧ (0 : Nat) ≠ SIZE_MAX := by
  decide

/-- C2 (amended): the name-keyed key-size lookup returns 0 — not a
distinguished sentinel — when given a null/absent name, while for recognized
names it returns the key byte count (`hmac(sha256)` ↦ 32, `aead` ↦ 0); the
scheme-keyed variant returns 0 in the no-key cases. -/
theorem key_size_lookup_behavior :
    vic_integrity_key_size_from_str none = 0 ∧
    vic_integrity_key_size_from_str (some "hmac(sha256)") = 32 ∧
    vic_integrity_key_size_from_str (some "aead") = 0 ∧
    vic_integrity_key_size VIC_INTEGRITY_NONE = 0 ∧
    vic_integrity_key_size VIC_INTEGRITY_HMAC_AEAD = 0 ∧
    vic_integrity_key_size VIC_INTEGRITY_CMAC_AES = 0 ∧
    vic_integrity_key_size VIC_INTEGRITY_POLY1305 = 0 := by
  decide

/-- C10: the name-keyed tag-size lookup returns the `(size_t)-1` sentinel for
every name outside the five keyed entries — including the canonical name
`"none"` of the none scheme — and for a null name, whereas the scheme-keyed
tag-size lookup returns 0 for the none scheme, so the two disagree at
`none`. -/
theorem tag_size_sentinel (s : String)
    (h : s ∉ ["aead", "hmac(sha256)", "hmac(sha512)", "cmac(aes)",
      "poly1305"]) :
    vic_integrity_tag_size_from_str (some s) = SIZE_MAX ∧
    vic_integrity_tag_size_from_str none = SIZE_MAX ∧
    vic_integrity_tag_size VIC_INTEGRITY_NONE = 0 ∧
    vic_integrity_tag_size_from_str
        (some (vic_integrity_name VIC_INTEGRITY_NONE)) ≠
      vic_integrity_tag_size VIC_INTEGRITY_NONE := by
  simp only [List.mem_cons, List.not_mem_nil, or_false, not_or] at h
  obtain ⟨n1, n2, n3, n4, n5⟩ := h
  refine ⟨?_, by decide, by decide, by decide⟩
  simp only [vic_integrity_tag_size_from_str, if_neg n1, if_neg n2,
    if_neg n3, if_neg n4, if_neg n5]

/-- C10 witness: the name `"none"` is outside the five keyed entries and maps
to the sentinel. -/
theorem tag_size_sentinel_witness :
    vic_integrity_tag_size_from_str (some "none") = SIZE_MAX :=
  (tag_size_sentinel "none" (by decide)).1

/-- C3 (code bug): the claim asks that the power-of-two expansion yield
exactly `2^v` for every exponent `v < 64` and that the reader reject
exponents ≥ 64.  The code's `_inverse_log2` shifts the 32-bit `int` literal
`1`, so the expansion is undefined already for `v = 31` and `v = 33`
(both < 64) — it is exact only up to `v = 30` — and `vic_read_integrity_sb`
performs no exponent validation at all: it accepts a superblock whose
`log2_interleave_sectors` byte is 200 with `VIC_OK`. -/
theorem inverse_log2_bug :
    _inverse_log2 33 = none ∧
    _inverse_log2 31 = none ∧
    _inverse_log2 30 = some (2 ^ 30) ∧
    _inverse_log2 7 = some (2 ^ 7) ∧
    (vic_read_integrity_sb dev_big_exponent 0 sb_probe).result = VIC_OK ∧
    (vic_read_integrity_sb dev_big_exponent 0
        sb_probe).sb.log2_interleave_sectors = 200 := by
  decide

/-- A device reporting block size 4096 (≠ `VIC_SECTOR_SIZE`). -/
def dev_badsize : vic_blockdev_t :=
  ⟨Except.ok 4096, fun _ => some (List.replicate 512 0)⟩

/-- A well-formed, magic-carrying superblock value. -/
def sb_valid : vic_integrity_sb_t := ⟨_magic, 1, 7, 32, 100, 1000, 0, 0, 3, 42⟩

/-- A device serving the spec-layout encoding of `sb_valid`. -/
def dev_valid : vic_blockdev_t :=
  ⟨Except.ok 512, fun _ => some (encode_sb sb_valid)⟩

/-- If byte `k < 8` of the sector differs from byte `k` of the magic, the
decoded magic differs from `_magic`. -/
theorem magic_differs {blk : List Nat} {k : Nat} (hk : k < 8)
    (hne : byteAt blk k ≠ _magic.getD k 0) :
    (decode_sb blk).magic ≠ _magic := by
  intro he
  apply hne
  have h8 := congrArg (fun l => l.getD k 0) he
  simp only at h8
  rw [← h8]
  interval_cases k <;> rfl

/-- C5: whenever the device's reported block size differs from
`VIC_SECTOR_SIZE`, the reader returns `VIC_BAD_BLOCK_SIZE`, leaves the
caller's structure unchanged, and performs zero `vic_blockdev_get` calls. -/
theorem read_sb_bad_block_size (device : vic_blockdev_t) (offset : Nat)
    (sb0 : vic_integrity_sb_t) (bs : Nat)
    (hbs : device.get_block_size = Except.ok bs)
    (hne : bs ≠ VIC_SECTOR_SIZE) :
    vic_read_integrity_sb device offset sb0 =
      ⟨VIC_BAD_BLOCK_SIZE, sb0, 0⟩ := by
  simp [vic_read_integrity_sb, hbs, hne]

/-- C5 witness: a device reporting block size 4096. -/
theorem read_sb_bad_block_size_witness :
    vic_read_integrity_sb dev_badsize 0 sb_probe =
      ⟨VIC_BAD_BLOCK_SIZE, sb_probe, 0⟩ :=
  read_sb_bad_block_size dev_badsize 0 sb_probe 4096 rfl (by decide)

/-- C6: with the block size matching, a successfully read sector whose first
8 bytes differ from the magic in some byte position `k < 8` yields
`VIC_NOT_FOUND` (never `VIC_FAILED` or `VIC_UNEXPECTED`), while a failing
device read yields `VIC_FAILED`; the two outcomes are distinct results. -/
theorem read_sb_notfound_vs_failed (device : vic_blockdev_t) (offset : Nat)
    (sb0 : vic_integrity_sb_t)
    (hbs : device.get_block_size = Except.ok VIC_SECTOR_SIZE) :
    (∀ blk k, device.get (offset / VIC_SECTOR_SIZE) = some blk → k < 8 →
       byteAt blk k ≠ _magic.getD k 0 →
       vic_read_integrity_sb device offset sb0 =
         ⟨VIC_NOT_FOUND, decode_sb blk, 1⟩) ∧
    (device.get (offset / VIC_SECTOR_SIZE) = none →
       vic_read_integrity_sb device offset sb0 = ⟨VIC_FAILED, sb0, 1⟩) ∧
    VIC_NOT_FOUND ≠ VIC_FAILED := by
  refine ⟨?_, ?_, by decide⟩
  · intro blk k hget hk hne
    have hm : (decode_sb blk).magic ≠ _magic := magic_differs hk hne
    simp [vic_read_integrity_sb, hbs, hget, hm]
  · intro hget
    simp [vic_read_integrity_sb, hbs, hget]

/-- C6 witness: an all-zero sector (byte 0 is 0, not the magic's 105) gives
`VIC_NOT_FOUND`. -/
theorem read_sb_notfound_vs_failed_witness :
    vic_read_integrity_sb dev_zeros 0 sb_probe =
      ⟨VIC_NOT_FOUND, decode_sb (List.replicate 512 0), 1⟩ :=
  (read_sb_notfound_vs_failed dev_zeros 0 sb_probe rfl).1
    (List.replicate 512 0) 0 rfl (by decide) (by decide)

/-- C7: with the block size matching, a successfully read sector whose
decoded first 8 bytes equal the magic constant makes the reader succeed with
exactly the structure decoded from the sector's documented offsets and
widths; and decoding the spec-layout encoding of any well-formed structure
recovers every field (the §8 round-trip, so each returned field equals the
value encoded at its documented offset and width). -/
theorem read_sb_valid_magic (device : vic_blockdev_t) (offset : Nat)
    (sb0 : vic_integrity_sb_t) (blk : List Nat) (sb : vic_integrity_sb_t)
    (hbs : device.get_block_size = Except.ok VIC_SECTOR_SIZE)
    (hget : device.get (offset / VIC_SECTOR_SIZE) = some blk)
    (hmg : (decode_sb blk).magic = _magic)
    (hwf : sb_wf sb) :
    vic_read_integrity_sb device offset sb0 = ⟨VIC_OK, decode_sb blk, 1⟩ ∧
    decode_sb (encode_sb sb) = sb := by
  refine ⟨?_, decode_encode_sb hwf⟩
  simp [vic_read_integrity_sb, hbs, hget, hmg]

/-- C7 witness: the encoding of `sb_valid` is read back successfully and
decodes to `sb_valid`. -/
theorem read_sb_valid_magic_witness :
    vic_read_integrity_sb dev_valid 0 sb_probe =
      ⟨VIC_OK, decode_sb (encode_sb sb_valid), 1⟩ ∧
    decode_sb (encode_sb sb_valid) = sb_valid :=
  read_sb_valid_magic dev_valid 0 sb_probe (encode_sb sb_valid) sb_valid
    rfl rfl (by decide) (by decide)

/-- C1 counterexample: on a magic-check failure the caller's structure is NOT
left unchanged — reading an all-zero sector returns `VIC_NOT_FOUND` with the
caller's structure overwritten by the decoded (non-magic) zero bytes. -/
theorem read_sb_overwrites_on_notfound :
    (vic_read_integrity_sb dev_zeros 0 sb_probe).result = VIC_NOT_FOUND ∧
    (vic_read_integrity_sb dev_zeros 0 sb_probe).sb ≠ sb_probe := by
  decide

/-- C1 (amended): the caller's structure is unchanged on the failures that
occur before the sector copy — block-size query failure, `VIC_BAD_BLOCK_SIZE`
and `VIC_FAILED` — but on `VIC_NOT_FOUND` (magic mismatch after a successful
read) it has already been overwritten with the decoded sector contents, whose
magic does not match. -/
theorem read_sb_failure_outputs (device : vic_blockdev_t) (offset : Nat)
    (sb0 : vic_integrity_sb_t) :
    (∀ r, device.get_block_size = Except.error r →
       vic_read_integrity_sb device offset sb0 = ⟨r, sb0, 0⟩) ∧
    (∀ bs, device.get_block_size = Except.ok bs → bs ≠ VIC_SECTOR_SIZE →
       vic_read_integrity_sb device offset sb0 =
         ⟨VIC_BAD_BLOCK_SIZE, sb0, 0⟩) ∧
    (device.get_block_size = Except.ok VIC_SECTOR_SIZE →
       device.get (offset / VIC_SECTOR_SIZE) = none →
       vic_read_integrity_sb device offset sb0 = ⟨VIC_FAILED, sb0, 1⟩) ∧
    (∀ blk, device.get_block_size = Except.ok VIC_SECTOR_SIZE →
       device.get (offset / VIC_SECTOR_SIZE) = some blk →
       (decode_sb blk).magic ≠ _magic →
       vic_read_integrity_sb device offset sb0 =
         ⟨VIC_NOT_FOUND, decode_sb blk, 1⟩) := by
  refine ⟨?_, ?_, ?_, ?_⟩
  · intro r h; simp [vic_read_integrity_sb, h]
  · intro bs h hne; simp [vic_read_integrity_sb, h, hne]
  · intro h hget; simp [vic_read_integrity_sb, h, hget]
  · intro blk h hget hm; simp [vic_read_integrity_sb, h, hget, hm]

/-- A superblock whose `log2_interleave_sectors` exponent 33 makes the dump's
expansion undefined (32-bit shift, see `_inverse_log2`), but whose magic is
valid. -/
def sb_ub : vic_integrity_sb_t := ⟨_magic, 0, 33, 0, 0, 0, 0, 0, 0, 0⟩

/-- A magic-carrying superblock with `log2_interleave_sectors = 7` and
`log2_sectors_per_block = 0`. -/
def sb_seven : vic_integrity_sb_t := ⟨_magic, 1, 7, 0, 0, 0, 0, 0, 0, 0⟩

/-- C8: the dump of a valid superblock reports each raw `log2_*` exponent
together with its expanded power of two: exponent 7 is reported with 128,
and exponent 0 with 1. -/
theorem dump_reports_expanded (sb : vic_integrity_sb_t)
    (hm : sb.magic = _magic)
    (h1 : sb.log2_interleave_sectors = 7)
    (h2 : sb.log2_sectors_per_block = 0)
    (h3 : sb.log2_blocks_per_bitmap_bit ≤ 30) :
    ∃ lines, vic_dump_integrity_sb (some sb) = some (VIC_OK, lines) ∧
      "  log2_interleave_sectors=7 (128)" ∈ lines ∧
      "  log2_sectors_per_block=0 (1)" ∈ lines := by
  obtain ⟨mg, v, l1, t, j, p, fl, l2, l3, r⟩ := sb
  simp only at hm h1 h2 h3
  subst hm h1 h2
  have e3 : _inverse_log2 l3 = some (1 <<< l3) := by
    simp [_inverse_log2, h3]
  refine ⟨["vic_luks_integrity_sb", "\x7b",
    "  magic=integrt (69 6e 74 65 67 72 74 00)",
    "  version=" ++ toString v,
    "  log2_interleave_sectors=7 (128)",
    "  integrity_tag_size=" ++ toString t,
    "  journal_sections=" ++ toString j,
    "  provided_data_sectors=" ++ toString p,
    "  flags=" ++ toString fl,
    "  log2_sectors_per_block=0 (1)",
    "  log2_blocks_per_bitmap_bit=" ++ toString l3 ++ " (" ++
      toString (1 <<< l3) ++ ")",
    "  recalc_sector=" ++ toString r,
    "\x7d"], ?_, ?_, ?_⟩
  · simp only [vic_dump_integrity_sb]
    rw [if_neg (by simp)]
    rw [e3]
    exact rfl
  · exact List.Mem.tail _ (List.Mem.tail _ (List.Mem.tail _
      (List.Mem.tail _ (List.Mem.head _))))
  · exact List.Mem.tail _ (List.Mem.tail _ (List.Mem.tail _
      (List.Mem.tail _ (List.Mem.tail _ (List.Mem.tail _ (List.Mem.tail _
      (List.Mem.tail _ (List.Mem.tail _ (List.Mem.head _)))))))))

/-- C8 witness: the dump of `sb_seven` reports `7 (128)` and `0 (1)`. -/
theorem dump_reports_expanded_witness :
    ∃ lines, vic_dump_integrity_sb (some sb_seven) = some (VIC_OK, lines) ∧
      "  log2_interleave_sectors=7 (128)" ∈ lines ∧
      "  log2_sectors_per_block=0 (1)" ∈ lines :=
  dump_reports_expanded sb_seven rfl rfl rfl (by decide)

/-- C9 counterexample: the claim asserts the dump of every valid (magic-
carrying) input returns success, but for the valid `sb_ub` (exponent 33) the
expansion `1 << 33` of the 32-bit `int` literal is undefined behaviour, so no
successful outcome is guaranteed (modelled as `none`). -/
theorem dump_ub_on_valid_input :
    sb_ub.magic = _magic ∧ vic_dump_integrity_sb (some sb_ub) = none := by
  decide

/-- C9 (amended): the dump of a null structure or of one whose magic differs
from `_magic` returns `VIC_BAD_PARAMETER` with no output; for a valid input
whose `log2_*` exponents are each ≤ 30 — the range where the code's 32-bit
expansion shift is well defined — it returns `VIC_OK` (the embedding takes
the structure by value and only reads it, so it is not mutated). -/
theorem dump_parameter_check (sb : vic_integrity_sb_t) :
    vic_dump_integrity_sb none = some (VIC_BAD_PARAMETER, []) ∧
    (sb.magic ≠ _magic →
      vic_dump_integrity_sb (some sb) = some (VIC_BAD_PARAMETER, [])) ∧
    (sb.magic = _magic → sb.log2_interleave_sectors ≤ 30 →
      sb.log2_sectors_per_block ≤ 30 →
      sb.log2_blocks_per_bitmap_bit ≤ 30 →
      ∃ lines, vic_dump_integrity_sb (some sb) = some (VIC_OK, lines)) := by
  refine ⟨rfl, ?_, ?_⟩
  · intro h
    simp [vic_dump_integrity_sb, h]
  · intro hm ha hb hc
    obtain ⟨mg, v, l1, t, j, p, fl, l2, l3, r⟩ := sb
    simp only at hm ha hb hc
    subst hm
    have e1 : _inverse_log2 l1 = some (1 <<< l1) := by
      simp [_inverse_log2, ha]
    have e2 : _inverse_log2 l2 = some (1 <<< l2) := by
      simp [_inverse_log2, hb]
    have e3 : _inverse_log2 l3 = some (1 <<< l3) := by
      simp [_inverse_log2, hc]
    refine ⟨["vic_luks_integrity_sb", "\x7b",
      "  magic=integrt (69 6e 74 65 67 72 74 00)",
      "  version=" ++ toString v,
      "  log2_interleave_sectors=" ++ toString l1 ++ " (" ++
        toString (1 <<< l1) ++ ")",
      "  integrity_tag_size=" ++ toString t,
      "  journal_sections=" ++ toString j,
      "  provided_data_sectors=" ++ toString p,
      "  flags=" ++ toString fl,
      "  log2_sectors_per_block=" ++ toString l2 ++ " (" ++
        toString (1 <<< l2) ++ ")",
      "  log2_blocks_per_bitmap_bit=" ++ toString l3 ++ " (" ++
        toString (1 <<< l3) ++ ")",
      "  recalc_sector=" ++ toString r,
      "\x7d"], ?_⟩
    simp only [vic_dump_integrity_sb]
    rw [if_neg (by simp)]
    rw [e1, e2, e3]
    exact rfl

end Integrity
